import Mathlib

/-!
Verification of the Sentinel transaction-classification-and-alert pipeline.

Shallow embedding of the TypeScript source:
- `src/services/ai.service.ts` (AIService.classifyTransaction and helpers),
- `src/services/transaction.service.ts` (TransactionService.createTransaction),
- `src/services/alert.service.ts` (AlertService.checkAndTriggerAlert),
- `src/repositories/transaction.repository.ts` (create, getTotalByCategory),
- `src/repositories/alert-rule.repository.ts` (create, findByUserAndCategory),
- `src/app/api/transactions/route.ts` (POST handler validation),
- `src/services/queue.service.ts` (alertQueue.add payload).

Monetary amounts, thresholds and confidences are JavaScript numbers arriving
through JSON; JSON numbers are finite decimals, so they are modelled as `Rat`.
Database state is explicit: every Prisma call is modelled as a function of the
store state, and fallible external effects (the OpenAI call, the store write,
the queue enqueue) are injected through an explicit environment value.
-/

/-- A row of the Prisma `User` model (id, email; timestamps omitted,
no claim mentions them). -/
structure User where
  id : String
  email : String
deriving Repr, DecidableEq

/-- A row of the Prisma `Transaction` model (timestamps omitted). -/
structure Transaction where
  id : String
  userId : String
  description : String
  amount : Rat
  category : String
  confidence : Rat
deriving Repr, DecidableEq

/-- A row of the Prisma `AlertRule` model (timestamps omitted). -/
structure AlertRule where
  id : String
  userId : String
  category : String
  threshold : Rat
  isActive : Bool
deriving Repr, DecidableEq

/-- The relational store reachable through the Prisma client, plus a counter
standing for the unique-id generation done by Prisma (cuid). -/
structure DB where
  users : List User
  transactions : List Transaction
  alertRules : List AlertRule
  nextId : Nat
deriving Repr, DecidableEq

/-- `ClassificationResult` from `src/types/index.ts`. -/
structure ClassificationResult where
  category : String
  confidence : Rat
deriving Repr, DecidableEq

/-- `TransactionInput` from `src/types/index.ts`. -/
structure TransactionInput where
  userId : String
  description : String
  amount : Rat
deriving Repr, DecidableEq

/-- `AlertRuleInput` from `src/types/index.ts`. -/
structure AlertRuleInput where
  userId : String
  category : String
  threshold : Rat
deriving Repr, DecidableEq

/-- `AlertEvent` from `src/types/index.ts`; `triggeredAt` (a `Date` in the
source, `new Date()` at emission) is modelled as a `Nat` clock value supplied
by the caller. -/
structure AlertEvent where
  userId : String
  category : String
  threshold : Rat
  totalSpent : Rat
  message : String
  triggeredAt : Nat
deriving Repr, DecidableEq

/-- `AlertQueueJob` from `src/services/queue.service.ts`. -/
structure AlertQueueJob where
  userId : String
  transactionId : String
  category : String
  amount : Rat
deriving Repr, DecidableEq

/-- The BullMQ alert queue, modelled as the list of enqueued job payloads. -/
structure AlertQueue where
  jobs : List AlertQueueJob
deriving Repr, DecidableEq

/-- Full system state: the relational store plus the durable queue. -/
structure SysState where
  db : DB
  queue : AlertQueue
deriving Repr, DecidableEq

/-- Outcome of the external OpenAI chat-completions call observed by
`AIService.classifyTransaction`. JSON cannot encode NaN or Infinity, so a
parsed confidence, when it is a number at all, is a finite value (`Rat`);
a present-but-non-numeric confidence is `none`. -/
inductive ChatOutcome where
  /-- The API call itself throws (network error, API error). -/
  | fails
  /-- The call returns but `response.choices[0]?.message?.content` is
  null or undefined. -/
  | noContent
  /-- The content string is not valid JSON, so `JSON.parse` throws. -/
  | malformed
  /-- The content parses to an object whose `category` field is the given
  string (or absent) and whose `confidence` field is the given number
  (or absent / not a number). -/
  | parsed (category : Option String) (confidence : Option Rat)
deriving Repr, DecidableEq

/-- Environment of injected external-effect outcomes for one request:
the classifier outcome, whether the store write fails (PersistenceError),
and whether the queue enqueue fails (DispatchError). -/
structure Env where
  chat : ChatOutcome
  persistFails : Bool
  dispatchFails : Bool
deriving Repr, DecidableEq

/-- `ALLOWED_CATEGORIES` from `src/services/ai.service.ts`. -/
def ALLOWED_CATEGORIES : List String :=
  ["Food", "Transport", "Utilities", "Entertainment", "Shopping"]

/-- JavaScript `String.prototype.trim()`: strips leading and trailing
whitespace (structural recursion over the character list, so that concrete
instances evaluate). -/
def jsTrim (s : String) : String :=
  ⟨((s.data.dropWhile Char.isWhitespace).reverse.dropWhile Char.isWhitespace).reverse⟩

namespace AIService

/-- `AIService.isValidCategory` from `src/services/ai.service.ts`. -/
def isValidCategory (category : String) : Bool :=
  ALLOWED_CATEGORIES.contains category

/-- `AIService.getAllowedCategories` from `src/services/ai.service.ts`. -/
def getAllowedCategories : List String :=
  ALLOWED_CATEGORIES

/-- JavaScript truthiness test `!result.category` on the parsed category
field: absent/undefined and the empty string are falsy. -/
def categoryFalsy : Option String → Bool
  | none => true
  | some s => s == ""

/-- The validation condition of `classifyTransaction` on the parsed response:
`!result.category || !ALLOWED_CATEGORIES.includes(result.category) ||
typeof result.confidence !== "number" || result.confidence < 0 ||
result.confidence > 1`. -/
def responseInvalid (category : Option String) (confidence : Option Rat) : Bool :=
  categoryFalsy category ||
  !(ALLOWED_CATEGORIES.contains (category.getD "")) ||
  confidence.isNone ||
  decide ((confidence.getD 0) < 0) ||
  decide ((confidence.getD 0) > 1)

/-- The fallback classification returned on any failure:
`{category: "Shopping", confidence: 0.5}` (both the invalid-structure branch
and the catch branch of `classifyTransaction` return this literal). -/
def fallbackResult : ClassificationResult :=
  { category := "Shopping", confidence := 1/2 }

/-- The body of the `try` block of `AIService.classifyTransaction`:
`.error` marks a thrown exception (empty description, failed API call,
missing content, JSON.parse failure); the invalid-structure branch is a
plain `return` of the default, not a throw. -/
def classifyCore (description : String) (outcome : ChatOutcome) :
    Except String ClassificationResult :=
  if description == "" || (jsTrim description).length == 0 then
    .error "Description cannot be empty"
  else
    match outcome with
    | .fails => .error "OpenAI API call failed"
    | .noContent => .error "No response from OpenAI API"
    | .malformed => .error "JSON parse failure"
    | .parsed category confidence =>
      if responseInvalid category confidence then
        .ok fallbackResult
      else
        .ok { category := category.getD "", confidence := confidence.getD 0 }

/-- `AIService.classifyTransaction`: the `catch` branch maps every thrown
error to the safe default, so the function is total over its inputs. -/
def classifyTransaction (description : String) (outcome : ChatOutcome) :
    ClassificationResult :=
  match classifyCore description outcome with
  | .ok r => r
  | .error _ => fallbackResult

end AIService

namespace TransactionRepository

/-- `prisma.user.findUnique`-style lookup on the user id
(`findUniqueOrThrow` success means `some`, its throw means `none`). -/
def prismaUserFindUnique (db : DB) (id : String) : Option User :=
  db.users.find? (fun u => u.id == id)

/-- `prisma.user.create` with the data built in the catch branch of
`TransactionRepository.create`. -/
def prismaUserCreate (db : DB) (u : User) : DB :=
  { db with users := db.users ++ [u] }

/-- `prisma.transaction.create`: inserts the row with a fresh generated id
and returns the created row. -/
def prismaTransactionCreate (db : DB) (userId description : String)
    (amount : Rat) (category : String) (confidence : Rat) : DB × Transaction :=
  let txn : Transaction :=
    { id := "txn-" ++ toString db.nextId
      userId := userId
      description := description
      amount := amount
      category := category
      confidence := confidence }
  ({ db with transactions := db.transactions ++ [txn], nextId := db.nextId + 1 }, txn)

/-- `TransactionRepository.create` from
`src/repositories/transaction.repository.ts`: looks the user up with
`findUniqueOrThrow`; its inner catch creates the user with the default email
`` `${data.userId}@sentinel.local` ``; then inserts the transaction. -/
def create (db : DB) (userId description : String) (amount : Rat)
    (category : String) (confidence : Rat) : DB × Transaction :=
  let db1 :=
    match prismaUserFindUnique db userId with
    | some _ => db
    | none => prismaUserCreate db { id := userId, email := userId ++ "@sentinel.local" }
  prismaTransactionCreate db1 userId description amount category confidence

/-- A transaction row matches the `where: { userId, category }` filter. -/
def txnMatches (userId category : String) (t : Transaction) : Bool :=
  t.userId == userId && t.category == category

/-- `prisma.transaction.aggregate` with `_sum: { amount: true }`:
Prisma returns `null` for the sum when no row matches the filter. -/
def prismaTransactionAggregateSumAmount (db : DB) (userId category : String) :
    Option Rat :=
  let rows := db.transactions.filter (txnMatches userId category)
  if rows.isEmpty then none
  else some ((rows.map Transaction.amount).sum)

/-- `TransactionRepository.getTotalByCategory`:
`result._sum.amount || 0` maps a falsy sum (null, or the number 0) to 0. -/
def getTotalByCategory (db : DB) (userId category : String) : Rat :=
  match prismaTransactionAggregateSumAmount db userId category with
  | none => 0
  | some s => if s == 0 then 0 else s

end TransactionRepository

namespace AlertRuleRepository

/-- Modelled from the spec: the Prisma schema file (`prisma/schema.prisma`)
is not among the sources; per the spec and the repository docs it declares a
compound uniqueness constraint on `AlertRule (userId, category)` (the
`userId_category` key used by `findUnique`) and defaults `isActive` to true.
`prisma.alertRule.create` therefore rejects a row whose (userId, category)
pair is already present, leaving the store unchanged. -/
def prismaAlertRuleCreate (db : DB) (data : AlertRuleInput) :
    Except String (DB × AlertRule) :=
  if db.alertRules.any (fun r => r.userId == data.userId && r.category == data.category) then
    .error "Unique constraint failed on the fields: (userId, category)"
  else
    let rule : AlertRule :=
      { id := "rule-" ++ toString db.nextId
        userId := data.userId
        category := data.category
        threshold := data.threshold
        isActive := true }
    .ok ({ db with alertRules := db.alertRules ++ [rule], nextId := db.nextId + 1 }, rule)

/-- `AlertRuleRepository.create` from the alert-rule repository source:
forwards to `prisma.alertRule.create`, rethrowing any error. -/
def create (db : DB) (data : AlertRuleInput) : Except String (DB × AlertRule) :=
  prismaAlertRuleCreate db data

/-- `AlertRuleRepository.findByUserAndCategory`: a `prisma.alertRule.findUnique`
point lookup on the compound key `userId_category`. -/
def findByUserAndCategory (db : DB) (userId category : String) :
    Option AlertRule :=
  db.alertRules.find? (fun r => r.userId == userId && r.category == category)

end AlertRuleRepository

namespace AlertService

/-- The alert message built by `checkAndTriggerAlert`; the JavaScript
`toFixed(2)` decimal rendering of the two amounts is abstracted by
`toString` on `Rat` (no claim depends on the rendering). -/
def alertMessage (category : String) (totalSpent threshold : Rat) : String :=
  "Alert: You have exceeded your " ++ category ++ " budget! Spent: $" ++
    toString totalSpent ++ ", Limit: $" ++ toString threshold

/-- `AlertService.checkAndTriggerAlert` from the alert service source,
in state-passing form: each Prisma call is a read, so the returned store is
threaded through explicitly. `now` stands for `new Date()` at emission. -/
def checkAndTriggerAlert (db : DB) (userId category : String) (now : Nat) :
    DB × Option AlertEvent :=
  match AlertRuleRepository.findByUserAndCategory db userId category with
  | none => (db, none)
  | some alertRule =>
    if !alertRule.isActive then (db, none)
    else
      let totalSpent := TransactionRepository.getTotalByCategory db userId category
      if totalSpent > alertRule.threshold then
        (db, some { userId := userId
                    category := category
                    threshold := alertRule.threshold
                    totalSpent := totalSpent
                    message := alertMessage category totalSpent alertRule.threshold
                    triggeredAt := now })
      else (db, none)

end AlertService

namespace TransactionService

/-- `alertQueue.add` from `src/services/queue.service.ts`: appends the job
payload to the durable queue, or throws when the queue is unavailable
(DispatchError, injected through the environment). -/
def alertQueueAdd (env : Env) (q : AlertQueue) (job : AlertQueueJob) :
    Except String AlertQueue :=
  if env.dispatchFails then .error "queue unavailable"
  else .ok { jobs := q.jobs ++ [job] }

/-- The store write of step 2 of `createTransaction`, with the injected
PersistenceError: when the write fails the error is rethrown by the
repository and no row is committed. -/
def repositoryCreateE (env : Env) (db : DB) (userId description : String)
    (amount : Rat) (category : String) (confidence : Rat) :
    Except String (DB × Transaction) :=
  if env.persistFails then .error "persistence error"
  else .ok (TransactionRepository.create db userId description amount category confidence)

/-- `TransactionService.createTransaction` from the transaction service
source. Its `catch` logs and rethrows, so any step failure propagates to the
caller; effects already committed before the failing step are kept (nothing
is rolled back). The pair returned is (post-state, result-or-error). -/
def createTransaction (env : Env) (s : SysState) (data : TransactionInput) :
    SysState × Except String Transaction :=
  let classification := AIService.classifyTransaction data.description env.chat
  match repositoryCreateE env s.db data.userId data.description data.amount
      classification.category classification.confidence with
  | .error e => (s, .error e)
  | .ok (db1, txn) =>
    match alertQueueAdd env s.queue
        { userId := data.userId
          transactionId := txn.id
          category := txn.category
          amount := txn.amount } with
    | .error e => ({ db := db1, queue := s.queue }, .error e)
    | .ok q1 => ({ db := db1, queue := q1 }, .ok txn)

end TransactionService

/-- A JSON value as it can appear in a parsed request-body field. JSON has no
NaN or Infinity, so every JSON number is a finite value. Arrays and objects
are collapsed into one constructor: the handler only tests truthiness and
`typeof`, and both are truthy non-numbers. -/
inductive JsonVal where
  | str (s : String)
  | num (q : Rat)
  | boolean (b : Bool)
  | null
  | arrObj
deriving Repr, DecidableEq

/-- JavaScript truthiness of a possibly-absent field value
(`undefined`, `null`, `""`, `0` and `false` are falsy). -/
def jsFalsy : Option JsonVal → Bool
  | none => true
  | some (.str s) => s == ""
  | some (.num q) => q == 0
  | some (.boolean b) => !b
  | some .null => true
  | some .arrObj => false

/-- `typeof v === "number"` on a possibly-absent field value. -/
def jsIsNumber : Option JsonVal → Bool
  | some (.num _) => true
  | _ => false

/-- The destructured body `{ userId, description, amount }` of
`POST /api/transactions`. -/
structure RequestBody where
  userId : Option JsonVal
  description : Option JsonVal
  amount : Option JsonVal
deriving Repr, DecidableEq

/-- The `ApiResponse` fields of `src/lib/api-response.ts` observable through
`toHttpResponse` (the payload data itself is not needed by the claims). -/
structure ApiResult where
  success : Bool
  statusCode : Nat
  error : Option String
deriving Repr, DecidableEq

/-- `errorResponse` from `src/lib/api-response.ts`. -/
def errorResponse (msg : String) (statusCode : Nat) : ApiResult :=
  { success := false, statusCode := statusCode, error := some msg }

/-- `successResponse` from `src/lib/api-response.ts` (payload dropped). -/
def successResponse (statusCode : Nat) : ApiResult :=
  { success := true, statusCode := statusCode, error := none }

/-- String coercion used when a validated field is passed on to the service
(after validation, `userId` and `description` are nonempty strings in every
case the claims quantify over; other truthy values coerce via JS semantics,
abstracted here by a printed form). -/
def jsToString : JsonVal → String
  | .str s => s
  | .num q => toString q
  | .boolean b => toString b
  | .null => "null"
  | .arrObj => "[object Object]"

/-- Numeric view of a field value that already passed the
`typeof amount === "number"` check. -/
def jsToNumber : JsonVal → Rat
  | .num q => q
  | _ => 0

/-- The `POST /api/transactions` handler from
`src/app/api/transactions/route.ts`, parametrised over the transaction
service it calls so that non-invocation on invalid input is expressible:
the validation branches return before any collaborator runs. -/
def postTransactions
    (svc : SysState → TransactionInput → SysState × Except String Transaction)
    (s : SysState) (body : RequestBody) : SysState × ApiResult :=
  if jsFalsy body.userId || jsFalsy body.description || body.amount == none then
    (s, errorResponse "Missing required fields: userId, description, amount" 400)
  else if !jsIsNumber body.amount || jsToNumber (body.amount.getD .null) ≤ 0 then
    (s, errorResponse "Amount must be a positive number" 400)
  else
    let input : TransactionInput :=
      { userId := jsToString (body.userId.getD .null)
        description := jsToString (body.description.getD .null)
        amount := jsToNumber (body.amount.getD .null) }
    match svc s input with
    | (s1, .ok _) => (s1, successResponse 201)
    | (s1, .error e) => (s1, errorResponse e 500)

/-- Adding one more persisted transaction row to the store (the effect of a
later `TransactionRepository.create` on the transactions table). -/
def addTransaction (db : DB) (t : Transaction) : DB :=
  { db with transactions := db.transactions ++ [t] }

/-! Concrete states used by witnesses and counterexamples. -/

/-- The empty store. -/
def dbEmpty : DB := { users := [], transactions := [], alertRules := [], nextId := 0 }

/-- The empty system state. -/
def sEmpty : SysState := { db := dbEmpty, queue := { jobs := [] } }

/-- Concrete scenario from the spec: rule threshold 100 for (u1, Food). -/
def ruleFood : AlertRule :=
  { id := "r1", userId := "u1", category := "Food", threshold := 100, isActive := true }

/-- First Food transaction of the concrete scenario (amount 5). -/
def txnFood1 : Transaction :=
  { id := "t1", userId := "u1", description := "groceries", amount := 5,
    category := "Food", confidence := 1 }

/-- Second Food transaction of the concrete scenario (amount 15). -/
def txnFood2 : Transaction :=
  { id := "t2", userId := "u1", description := "cafe", amount := 15,
    category := "Food", confidence := 1 }

/-- Third Food transaction of the concrete scenario (amount 85). -/
def txnFood3 : Transaction :=
  { id := "t3", userId := "u1", description := "dinner", amount := 85,
    category := "Food", confidence := 1 }

/-- Store holding the rule and the first two scenario transactions
(total spend 20, below the threshold). -/
def dbScenario : DB :=
  { users := [{ id := "u1", email := "u1@sentinel.local" }]
    transactions := [txnFood1, txnFood2]
    alertRules := [ruleFood]
    nextId := 0 }

/-! Helper lemmas shared between the claim proofs. -/

theorem rat_if_beq_zero (s : Rat) : (if s == 0 then 0 else s) = s := by
  by_cases h : s = 0 <;> simp [h]

/-- `result._sum.amount || 0` collapses to the plain filtered sum: Prisma
returns null exactly when no row matches, and the empty sum is 0. -/
theorem getTotalByCategory_eq_sum (db : DB) (u c : String) :
    TransactionRepository.getTotalByCategory db u c =
      ((db.transactions.filter (TransactionRepository.txnMatches u c)).map
        Transaction.amount).sum := by
  unfold TransactionRepository.getTotalByCategory
    TransactionRepository.prismaTransactionAggregateSumAmount
  by_cases h : (db.transactions.filter (TransactionRepository.txnMatches u c)).isEmpty
  · rw [List.isEmpty_iff] at h
    simp [h]
  · simp only [Bool.not_eq_true] at h
    simp only [h, Bool.false_eq_true, if_false]
    exact rat_if_beq_zero _

/-- Appending a transaction row changes the category total by its amount
when it matches the (userId, category) filter, and not at all otherwise. -/
theorem getTotalByCategory_addTransaction (db : DB) (u c : String) (t : Transaction) :
    TransactionRepository.getTotalByCategory (addTransaction db t) u c =
      TransactionRepository.getTotalByCategory db u c +
        (if TransactionRepository.txnMatches u c t then t.amount else 0) := by
  rw [getTotalByCategory_eq_sum, getTotalByCategory_eq_sum]
  unfold addTransaction
  by_cases h : TransactionRepository.txnMatches u c t <;>
    simp [List.filter_append, h]

/-- Appending a transaction row does not change the alert-rule table, hence
not the rule lookup. -/
theorem findByUserAndCategory_addTransaction (db : DB) (t : Transaction) (u c : String) :
    AlertRuleRepository.findByUserAndCategory (addTransaction db t) u c =
      AlertRuleRepository.findByUserAndCategory db u c := rfl

/-- Every classification result is well-formed: the category is in the
allowed set and the confidence lies in [0,1] (valid responses pass the
validation; every other path yields the fallback). -/
theorem classifyTransaction_wf (d : String) (o : ChatOutcome) :
    (AIService.classifyTransaction d o).category ∈ ALLOWED_CATEGORIES ∧
    0 ≤ (AIService.classifyTransaction d o).confidence ∧
    (AIService.classifyTransaction d o).confidence ≤ 1 := by
  have hfall : AIService.fallbackResult.category ∈ ALLOWED_CATEGORIES ∧
      0 ≤ AIService.fallbackResult.confidence ∧
      AIService.fallbackResult.confidence ≤ 1 := by
    refine ⟨by decide, by norm_num [AIService.fallbackResult], by norm_num [AIService.fallbackResult]⟩
  unfold AIService.classifyTransaction AIService.classifyCore
  by_cases hd : (d == "" || (jsTrim d).length == 0) = true
  · simp [hd, hfall]
  · rw [Bool.not_eq_true] at hd
    simp only [hd, Bool.false_eq_true, if_false]
    cases o with
    | fails => simpa using hfall
    | noContent => simpa using hfall
    | malformed => simpa using hfall
    | parsed cat conf =>
      by_cases hv : AIService.responseInvalid cat conf
      · simp [hv, hfall]
      · simp only [hv, Bool.false_eq_true, if_false]
        unfold AIService.responseInvalid AIService.categoryFalsy at hv
        simp only [Bool.or_eq_true, not_or, Bool.not_eq_true] at hv
        obtain ⟨⟨⟨⟨hcat, hmem⟩, hnone⟩, hlt⟩, hgt⟩ := hv
        have hmem2 : ALLOWED_CATEGORIES.contains (cat.getD "") = true := by
          cases hb : ALLOWED_CATEGORIES.contains (cat.getD "") <;> simp_all
        refine ⟨by simpa using hmem2, ?_, ?_⟩
        · simpa using le_of_not_lt (of_decide_eq_false hlt)
        · simpa using le_of_not_lt (of_decide_eq_false hgt)

/-- The second component of `TransactionRepository.create` is the inserted
transaction row, carrying the given fields verbatim. -/
theorem create_snd_fields (db : DB) (uid desc : String) (amt : Rat)
    (cat : String) (conf : Rat) :
    ((TransactionRepository.create db uid desc amt cat conf).2).category = cat ∧
    ((TransactionRepository.create db uid desc amt cat conf).2).confidence = conf ∧
    ((TransactionRepository.create db uid desc amt cat conf).2).userId = uid ∧
    ((TransactionRepository.create db uid desc amt cat conf).2).description = desc ∧
    ((TransactionRepository.create db uid desc amt cat conf).2).amount = amt := by
  unfold TransactionRepository.create TransactionRepository.prismaTransactionCreate
  cases hf : TransactionRepository.prismaUserFindUnique db uid <;> simp [hf]

/-- An empty or whitespace-only description makes the try block throw, which
the catch maps to the fallback result. -/
theorem classify_emptyDescription (d : String) (o : ChatOutcome)
    (h : jsTrim d = "") :
    AIService.classifyTransaction d o = AIService.fallbackResult := by
  have hc : (d == "" || (jsTrim d).length == 0) = true := by simp [h]
  simp [AIService.classifyTransaction, AIService.classifyCore, hc]

/-- The store after `TransactionRepository.create` holds exactly the old
transaction rows plus the returned row. -/
theorem create_transactions_append (db : DB) (uid desc : String) (amt : Rat)
    (cat : String) (conf : Rat) :
    (TransactionRepository.create db uid desc amt cat conf).1.transactions =
      db.transactions ++ [(TransactionRepository.create db uid desc amt cat conf).2] := by
  unfold TransactionRepository.create TransactionRepository.prismaTransactionCreate
    TransactionRepository.prismaUserCreate
  cases hf : TransactionRepository.prismaUserFindUnique db uid <;> simp [hf]

/-- C3: classifyTransaction never raises to its caller (it is a total
function into ClassificationResult): an empty/whitespace description, a
failed underlying call, a missing response content, a malformed response,
a missing or non-numeric confidence, a confidence outside [0,1], and a
category outside the allowed set each yield the default result, which is
the last entry of the allowed set ("Shopping") with confidence 0.5. -/
theorem classifyTransaction_failsClosed (d : String) (o : ChatOutcome) :
    (jsTrim d = "" → AIService.classifyTransaction d o = AIService.fallbackResult) ∧
    AIService.classifyTransaction d ChatOutcome.fails = AIService.fallbackResult ∧
    AIService.classifyTransaction d ChatOutcome.noContent = AIService.fallbackResult ∧
    AIService.classifyTransaction d ChatOutcome.malformed = AIService.fallbackResult ∧
    (∀ cat, AIService.classifyTransaction d (ChatOutcome.parsed cat none) =
      AIService.fallbackResult) ∧
    (∀ cat q, q < 0 ∨ 1 < q →
      AIService.classifyTransaction d (ChatOutcome.parsed cat (some q)) =
        AIService.fallbackResult) ∧
    (∀ s q, s ∉ ALLOWED_CATEGORIES →
      AIService.classifyTransaction d (ChatOutcome.parsed (some s) q) =
        AIService.fallbackResult) ∧
    ALLOWED_CATEGORIES.getLast? = some "Shopping" ∧
    AIService.fallbackResult = { category := "Shopping", confidence := 1/2 } := by
  refine ⟨?_, ?_, ?_, ?_, ?_, ?_, ?_, by decide, by norm_num [AIService.fallbackResult]⟩
  · intro h
    have hc : (d == "" || (jsTrim d).length == 0) = true := by simp [h]
    simp [AIService.classifyTransaction, AIService.classifyCore, hc]
  · by_cases hd : (d == "" || (jsTrim d).length == 0) = true <;>
      simp [AIService.classifyTransaction, AIService.classifyCore, hd]
  · by_cases hd : (d == "" || (jsTrim d).length == 0) = true <;>
      simp [AIService.classifyTransaction, AIService.classifyCore, hd]
  · by_cases hd : (d == "" || (jsTrim d).length == 0) = true <;>
      simp [AIService.classifyTransaction, AIService.classifyCore, hd]
  · intro cat
    by_cases hd : (d == "" || (jsTrim d).length == 0) = true <;>
      simp [AIService.classifyTransaction, AIService.classifyCore,
        AIService.responseInvalid, hd]
  · intro cat q h
    have hinv : AIService.responseInvalid cat (some q) = true := by
      rcases h with h | h <;>
        simp [AIService.responseInvalid, h, decide_eq_true]
    by_cases hd : (d == "" || (jsTrim d).length == 0) = true <;>
      simp [AIService.classifyTransaction, AIService.classifyCore, hd, hinv]
  · intro s q h
    have hinv : AIService.responseInvalid (some s) q = true := by
      simp [AIService.responseInvalid, h]
    by_cases hd : (d == "" || (jsTrim d).length == 0) = true <;>
      simp [AIService.classifyTransaction, AIService.classifyCore, hd, hinv]

/-- Witness for C3 at concrete inputs: a whitespace-only description and a
category outside the allowed set both fall back. -/
theorem classifyTransaction_failsClosed_witness :
    AIService.classifyTransaction "   " ChatOutcome.noContent = AIService.fallbackResult ∧
    AIService.classifyTransaction "coffee" (ChatOutcome.parsed (some "Pets") (some (9/10))) =
      AIService.fallbackResult :=
  ⟨(classifyTransaction_failsClosed "   " ChatOutcome.noContent).1 (by decide),
   (classifyTransaction_failsClosed "coffee"
      (ChatOutcome.parsed (some "Pets") (some (9/10)))).2.2.2.2.2.2.1
     "Pets" (some (9/10)) (by decide)⟩

/-- C4: every transaction returned by createTransaction on a valid input
carries a category from the fixed allowed set and a confidence in [0,1],
whatever the external classifier did. -/
theorem createTransaction_wf (env : Env) (s : SysState) (data : TransactionInput)
    (h1 : data.userId ≠ "") (h2 : data.description ≠ "") (h3 : 0 < data.amount)
    (txn : Transaction)
    (hok : (TransactionService.createTransaction env s data).2 = Except.ok txn) :
    txn.category ∈ ALLOWED_CATEGORIES ∧ 0 ≤ txn.confidence ∧ txn.confidence ≤ 1 := by
  unfold TransactionService.createTransaction TransactionService.repositoryCreateE
    TransactionService.alertQueueAdd at hok
  by_cases hp : env.persistFails
  · simp [hp] at hok
  · simp only [hp, Bool.false_eq_true, if_false] at hok
    rcases hcr : TransactionRepository.create s.db data.userId data.description
        data.amount (AIService.classifyTransaction data.description env.chat).category
        (AIService.classifyTransaction data.description env.chat).confidence
      with ⟨db1, txn1⟩
    rw [hcr] at hok
    by_cases hq : env.dispatchFails
    · simp [hq] at hok
    · simp only [hq, Bool.false_eq_true, if_false] at hok
      simp only [Except.ok.injEq] at hok
      subst hok
      have hfields := create_snd_fields s.db data.userId data.description data.amount
        (AIService.classifyTransaction data.description env.chat).category
        (AIService.classifyTransaction data.description env.chat).confidence
      rw [hcr] at hfields
      rw [hfields.1, hfields.2.1]
      exact classifyTransaction_wf data.description env.chat

/-- Classifier outcome where everything succeeds with (Food, 1). -/
def chatFood : ChatOutcome := ChatOutcome.parsed (some "Food") (some 1)

/-- Environment where all external effects succeed. -/
def envOk : Env := { chat := chatFood, persistFails := false, dispatchFails := false }

/-- A valid concrete ingestion input. -/
def dataCoffee : TransactionInput := { userId := "u1", description := "Coffee", amount := 5 }

/-- The transaction row persisted for `dataCoffee` on the empty store. -/
def txnCoffee : Transaction :=
  { id := "txn-0", userId := "u1", description := "Coffee", amount := 5,
    category := "Food", confidence := 1 }

/-- Witness for C4 at a concrete valid input on the empty store. -/
theorem createTransaction_wf_witness :
    dataCoffee.userId ≠ "" ∧ dataCoffee.description ≠ "" ∧ (0 : Rat) < dataCoffee.amount ∧
    (TransactionService.createTransaction envOk sEmpty dataCoffee).2 = Except.ok txnCoffee ∧
    (txnCoffee.category ∈ ALLOWED_CATEGORIES ∧
      0 ≤ txnCoffee.confidence ∧ txnCoffee.confidence ≤ 1) :=
  ⟨by decide, by decide, by decide, by rfl,
   createTransaction_wf envOk sEmpty dataCoffee (by decide) (by decide)
     (by decide) txnCoffee (by rfl)⟩

/-- C10: an empty or whitespace-only description does not raise from
classifyTransaction: the internally thrown validation error is caught and
the fallback (Shopping, 0.5) is returned, so createTransaction (when
persistence and dispatch succeed) persists a Shopping transaction with
confidence 0.5 instead of failing at classification. -/
theorem emptyDescription_persistsFallback (env : Env) (s : SysState)
    (data : TransactionInput) (hd : jsTrim data.description = "")
    (hp : env.persistFails = false) (hq : env.dispatchFails = false) :
    AIService.classifyTransaction data.description env.chat = AIService.fallbackResult ∧
    ∃ txn, (TransactionService.createTransaction env s data).2 = Except.ok txn ∧
      txn.category = "Shopping" ∧ txn.confidence = 1/2 := by
  have hcl := classify_emptyDescription data.description env.chat hd
  refine ⟨hcl, ?_⟩
  unfold TransactionService.createTransaction TransactionService.repositoryCreateE
    TransactionService.alertQueueAdd
  simp only [hp, hq, Bool.false_eq_true, if_false]
  rcases hcr : TransactionRepository.create s.db data.userId data.description
      data.amount (AIService.classifyTransaction data.description env.chat).category
      (AIService.classifyTransaction data.description env.chat).confidence
    with ⟨db1, txn1⟩
  have hfields := create_snd_fields s.db data.userId data.description data.amount
    (AIService.classifyTransaction data.description env.chat).category
    (AIService.classifyTransaction data.description env.chat).confidence
  rw [hcr] at hfields
  refine ⟨txn1, ?_, ?_, ?_⟩
  · simp [hcr]
  · rw [hfields.1, hcl]
    rfl
  · rw [hfields.2.1, hcl]
    rfl

/-- A concrete request with an empty description. -/
def dataEmptyDesc : TransactionInput := { userId := "u1", description := "", amount := 5 }

/-- Environment where the classifier call fails outright but persistence and
dispatch succeed. -/
def envChatDown : Env := { chat := ChatOutcome.fails, persistFails := false, dispatchFails := false }

/-- Witness for C10 at a concrete empty-description input. -/
theorem emptyDescription_persistsFallback_witness :
    jsTrim dataEmptyDesc.description = "" ∧
    (AIService.classifyTransaction dataEmptyDesc.description envChatDown.chat =
        AIService.fallbackResult ∧
      ∃ txn, (TransactionService.createTransaction envChatDown sEmpty dataEmptyDesc).2 =
          Except.ok txn ∧ txn.category = "Shopping" ∧ txn.confidence = 1/2) :=
  ⟨by decide,
   emptyDescription_persistsFallback envChatDown sEmpty dataEmptyDesc
     (by decide) (by rfl) (by rfl)⟩

/-- C5: the Transaction Store creates a missing User (with the default
derived email) before inserting the Transaction and then succeeds; when the
User already exists the user table is left exactly as it was; in both cases
the Transaction row is inserted. -/
theorem create_autoProvisionsUser (db : DB) (uid desc : String) (amt : Rat)
    (cat : String) (conf : Rat) :
    (TransactionRepository.prismaUserFindUnique db uid = none →
      (TransactionRepository.create db uid desc amt cat conf).1.users =
        db.users ++ [{ id := uid, email := uid ++ "@sentinel.local" }]) ∧
    (∀ u, TransactionRepository.prismaUserFindUnique db uid = some u →
      (TransactionRepository.create db uid desc amt cat conf).1.users = db.users) ∧
    (TransactionRepository.create db uid desc amt cat conf).1.transactions =
      db.transactions ++ [(TransactionRepository.create db uid desc amt cat conf).2] := by
  refine ⟨?_, ?_, create_transactions_append db uid desc amt cat conf⟩ <;>
    unfold TransactionRepository.create TransactionRepository.prismaTransactionCreate
      TransactionRepository.prismaUserCreate <;>
    cases hf : TransactionRepository.prismaUserFindUnique db uid <;>
    simp [hf]

/-- Witness for C5: creating a transaction for a never-before-seen user id
on the empty store provisions the user record. -/
theorem create_autoProvisionsUser_witness :
    TransactionRepository.prismaUserFindUnique dbEmpty "u9" = none ∧
    (TransactionRepository.create dbEmpty "u9" "Coffee" 5 "Food" 1).1.users =
      dbEmpty.users ++ [{ id := "u9", email := "u9@sentinel.local" }] :=
  ⟨by rfl, (create_autoProvisionsUser dbEmpty "u9" "Coffee" 5 "Food" 1).1 (by rfl)⟩

/-- The Alert Rule Store invariant: at most one rule per (userId, category)
pair. -/
def RulesUnique (db : DB) : Prop :=
  db.alertRules.Pairwise (fun a b => ¬(a.userId = b.userId ∧ a.category = b.category))

/-- C6: under the uniqueness invariant, creating a second rule for an
already-present (userId, category) pair is rejected by the store (the error
branch returns no new store, so the store is unchanged), at most one stored
rule matches any (userId, category) pair, and the find-by-(userId, category)
point lookup returns only a stored rule matching the pair. -/
theorem alertRuleStore_unique (db : DB) (hinv : RulesUnique db) (u c : String) :
    (∀ r, r ∈ db.alertRules → r.userId = u → r.category = c →
      ∀ th, ∃ e, AlertRuleRepository.create db
        { userId := u, category := c, threshold := th } = Except.error e) ∧
    (∀ r₁ r₂, r₁ ∈ db.alertRules → r₂ ∈ db.alertRules → r₁.userId = u →
      r₁.category = c → r₂.userId = u → r₂.category = c → r₁ = r₂) ∧
    (∀ r, AlertRuleRepository.findByUserAndCategory db u c = some r →
      r ∈ db.alertRules ∧ r.userId = u ∧ r.category = c) := by
  refine ⟨?_, ?_, ?_⟩
  · intro r hr hru hrc th
    have hany : db.alertRules.any (fun r => r.userId == u && r.category == c) = true := by
      refine List.any_eq_true.mpr ⟨r, hr, ?_⟩
      simp [hru, hrc]
    unfold AlertRuleRepository.create AlertRuleRepository.prismaAlertRuleCreate
    simp only [hany, if_true]
    exact ⟨_, rfl⟩
  · intro r₁ r₂ h₁ h₂ h₁u h₁c h₂u h₂c
    by_contra hne
    have hsymm : Symmetric (fun a b : AlertRule =>
        ¬(a.userId = b.userId ∧ a.category = b.category)) := by
      intro a b hab ⟨h₃, h₄⟩
      exact hab ⟨h₃.symm, h₄.symm⟩
    exact hinv.forall hsymm h₁ h₂ hne ⟨h₁u.trans h₂u.symm, h₁c.trans h₂c.symm⟩
  · intro r hr
    unfold AlertRuleRepository.findByUserAndCategory at hr
    have hmem := List.mem_of_find?_eq_some hr
    have hpred := List.find?_some hr
    simp only [Bool.and_eq_true, beq_iff_eq] at hpred
    exact ⟨hmem, hpred.1, hpred.2⟩

/-- Witness for C6: on a store holding the (u1, Food) rule, a second
(u1, Food) rule is rejected. -/
theorem alertRuleStore_unique_witness :
    ∃ e, AlertRuleRepository.create dbScenario
      { userId := "u1", category := "Food", threshold := 50 } = Except.error e :=
  (alertRuleStore_unique dbScenario
      (by simp [RulesUnique, dbScenario]) "u1" "Food").1
    ruleFood (by simp [dbScenario]) (by rfl) (by rfl) 50

/-- checkAndTriggerAlert only reads: the store it returns is the one it was
given, whatever branch it takes. -/
theorem check_fst (db : DB) (u c : String) (n : Nat) :
    (AlertService.checkAndTriggerAlert db u c n).1 = db := by
  unfold AlertService.checkAndTriggerAlert
  split
  · rfl
  · split
    · rfl
    · dsimp only
      split <;> rfl

/-- checkAndTriggerAlert emits an event exactly when an active rule for the
pair exists and the recomputed total strictly exceeds its threshold. -/
theorem check_some_iff (db : DB) (u c : String) (n : Nat) :
    (∃ e, (AlertService.checkAndTriggerAlert db u c n).2 = some e) ↔
      ∃ r, AlertRuleRepository.findByUserAndCategory db u c = some r ∧
        r.isActive = true ∧
        TransactionRepository.getTotalByCategory db u c > r.threshold := by
  unfold AlertService.checkAndTriggerAlert
  cases hf : AlertRuleRepository.findByUserAndCategory db u c with
  | none => simp [hf]
  | some r =>
    by_cases ha : r.isActive
    · by_cases hgt : TransactionRepository.getTotalByCategory db u c > r.threshold <;>
        simp [hf, ha, hgt]
    · rw [Bool.not_eq_true] at ha
      simp [hf, ha]

/-- An emitted event carries the recomputed total, the threshold of the
matched rule, the pair it was evaluated for, and the emission clock. -/
theorem check_some_fields (db : DB) (u c : String) (n : Nat) (e : AlertEvent)
    (h : (AlertService.checkAndTriggerAlert db u c n).2 = some e) :
    e.totalSpent = TransactionRepository.getTotalByCategory db u c ∧
    e.userId = u ∧ e.category = c ∧ e.triggeredAt = n ∧
    ∀ r, AlertRuleRepository.findByUserAndCategory db u c = some r →
      e.threshold = r.threshold := by
  unfold AlertService.checkAndTriggerAlert at h
  cases hf : AlertRuleRepository.findByUserAndCategory db u c with
  | none => rw [hf] at h; cases h
  | some r =>
    rw [hf] at h
    by_cases ha : r.isActive
    · by_cases hgt : TransactionRepository.getTotalByCategory db u c > r.threshold
      · simp only [ha, Bool.not_true, Bool.false_eq_true, if_false, hgt, if_true,
          Option.some.injEq] at h
        refine ⟨by rw [← h], by rw [← h], by rw [← h], by rw [← h], ?_⟩
        intro r₂ hr₂
        rw [Option.some.injEq] at hr₂
        rw [← h, ← hr₂]
      · simp [ha, hgt] at h
    · rw [Bool.not_eq_true] at ha
      simp [ha] at h

/-- C2: checkAndTriggerAlert emits an AlertEvent iff a rule for
(userId, category) exists, is active, and the full recomputed total strictly
exceeds its threshold; the event carries that total and the threshold of
the rule; in every other case (no rule, inactive rule, or total at or below
the threshold) the result is null, without error. -/
theorem checkAndTriggerAlert_spec (db : DB) (u c : String) (n : Nat) :
    ((∃ e, (AlertService.checkAndTriggerAlert db u c n).2 = some e) ↔
      ∃ r, AlertRuleRepository.findByUserAndCategory db u c = some r ∧
        r.isActive = true ∧
        TransactionRepository.getTotalByCategory db u c > r.threshold) ∧
    ∀ e, (AlertService.checkAndTriggerAlert db u c n).2 = some e →
      e.totalSpent = TransactionRepository.getTotalByCategory db u c ∧
      ∀ r, AlertRuleRepository.findByUserAndCategory db u c = some r →
        e.threshold = r.threshold :=
  ⟨check_some_iff db u c n,
   fun e h =>
     ⟨(check_some_fields db u c n e h).1, (check_some_fields db u c n e h).2.2.2.2⟩⟩

/-- A single Food transaction whose amount 105 exceeds the threshold. -/
def txnBig : Transaction :=
  { id := "t9", userId := "u1", description := "banquet", amount := 105,
    category := "Food", confidence := 1 }

/-- Store with the breach scenario: rule threshold 100, Food spend 105. -/
def dbBreach : DB := { dbScenario with transactions := [txnBig] }

/-- Witness for C2 on the concrete breach scenario (total 105 > 100). -/
theorem checkAndTriggerAlert_spec_witness :
    ∃ e, (AlertService.checkAndTriggerAlert dbBreach "u1" "Food" 7).2 = some e :=
  (checkAndTriggerAlert_spec dbBreach "u1" "Food" 7).1.mpr
    ⟨ruleFood, by rfl, by rfl, by
      rw [getTotalByCategory_eq_sum]
      simp [dbBreach, dbScenario, txnBig, ruleFood, TransactionRepository.txnMatches] <;>
        decide⟩

/-- C7: threshold evaluation is read-only and idempotent: one run returns
the store unchanged, a second run against that same store returns it
unchanged again, and the two alert decisions agree up to the triggeredAt
timestamp. -/
theorem checkAndTriggerAlert_readonly_idempotent (db : DB) (u c : String)
    (n₁ n₂ : Nat) :
    (AlertService.checkAndTriggerAlert db u c n₁).1 = db ∧
    (AlertService.checkAndTriggerAlert
      (AlertService.checkAndTriggerAlert db u c n₁).1 u c n₂).1 = db ∧
    Option.map (fun e => { e with triggeredAt := 0 })
        (AlertService.checkAndTriggerAlert db u c n₁).2 =
      Option.map (fun e => { e with triggeredAt := 0 })
        (AlertService.checkAndTriggerAlert
          (AlertService.checkAndTriggerAlert db u c n₁).1 u c n₂).2 := by
  refine ⟨check_fst db u c n₁, ?_, ?_⟩
  · rw [check_fst db u c n₁]
    exact check_fst db u c n₂
  · rw [check_fst db u c n₁]
    unfold AlertService.checkAndTriggerAlert
    split
    · rfl
    · split
      · rfl
      · dsimp only
        split <;> rfl

/-- C8: evaluation is monotone in added spend. With an active rule for the
pair: if evaluation currently yields no alert and a matching transaction is
added whose amount pushes the recomputed total strictly past the threshold,
re-evaluation yields an alert; and adding any positive-amount transaction
never turns an alert outcome into a no-alert outcome. -/
theorem evaluation_monotone (db : DB) (u c : String) (t : Transaction)
    (n₁ n₂ : Nat) :
    (∀ r, AlertRuleRepository.findByUserAndCategory db u c = some r →
      r.isActive = true →
      (AlertService.checkAndTriggerAlert db u c n₁).2 = none →
      t.userId = u → t.category = c →
      TransactionRepository.getTotalByCategory db u c + t.amount > r.threshold →
      ∃ e, (AlertService.checkAndTriggerAlert (addTransaction db t) u c n₂).2 = some e) ∧
    (0 < t.amount →
      ∀ e, (AlertService.checkAndTriggerAlert db u c n₁).2 = some e →
        ∃ e₂, (AlertService.checkAndTriggerAlert (addTransaction db t) u c n₂).2 = some e₂) := by
  constructor
  · intro r hf hact _hnone hu hc hgt
    refine (check_some_iff (addTransaction db t) u c n₂).mpr ⟨r, ?_, hact, ?_⟩
    · rw [findByUserAndCategory_addTransaction]
      exact hf
    · rw [getTotalByCategory_addTransaction]
      have hm : TransactionRepository.txnMatches u c t = true := by
        simp [TransactionRepository.txnMatches, hu, hc]
      rw [hm, if_pos rfl]
      exact hgt
  · intro hpos e he
    obtain ⟨r, hf, hact, hgt⟩ := (check_some_iff db u c n₁).mp ⟨e, he⟩
    refine (check_some_iff (addTransaction db t) u c n₂).mpr ⟨r, ?_, hact, ?_⟩
    · rw [findByUserAndCategory_addTransaction]
      exact hf
    · rw [getTotalByCategory_addTransaction]
      by_cases hm : TransactionRepository.txnMatches u c t = true
      · rw [hm, if_pos rfl]
        linarith
      · rw [Bool.not_eq_true] at hm
        simp only [hm, Bool.false_eq_true, if_false, add_zero]
        exact hgt

/-- Store with the active (u1, Food) rule and no transactions yet. -/
def dbRuleOnly : DB := { dbScenario with transactions := [] }

/-- Witness for C8: with no spend yet (no alert), adding the 105 Food
transaction pushes the total past the threshold 100 and re-evaluation
alerts. -/
theorem evaluation_monotone_witness :
    ∃ e, (AlertService.checkAndTriggerAlert (addTransaction dbRuleOnly txnBig)
      "u1" "Food" 9).2 = some e :=
  (evaluation_monotone dbRuleOnly "u1" "Food" txnBig 7 9).1 ruleFood
    (by rfl) (by rfl) (by rfl) (by rfl) (by rfl)
    (by
      have h0 : TransactionRepository.getTotalByCategory dbRuleOnly "u1" "Food" = 0 := rfl
      rw [h0, zero_add]
      decide)

/-- C9: a request missing userId, description, or amount, or whose amount
is not a number greater than zero, is rejected with HTTP 400 before any
collaborator runs: the system state is unchanged and the response does not
depend on the transaction service at all (so classification, persistence
and enqueue are never invoked and no partial Transaction is returned). -/
theorem postTransactions_rejectsInvalid
    (svc svc₂ : SysState → TransactionInput → SysState × Except String Transaction)
    (s : SysState) (body : RequestBody)
    (h : body.userId = none ∨ body.description = none ∨ body.amount = none ∨
      ∃ v, body.amount = some v ∧ ∀ q, v = JsonVal.num q → q ≤ 0) :
    (postTransactions svc s body).1 = s ∧
    (postTransactions svc s body).2.statusCode = 400 ∧
    (postTransactions svc s body).2.success = false ∧
    postTransactions svc s body = postTransactions svc₂ s body := by
  unfold postTransactions
  rcases h with h | h | h | ⟨v, hv, hq⟩
  · simp [h, jsFalsy, errorResponse]
  · simp [h, jsFalsy, errorResponse]
  · simp [h, errorResponse]
  · by_cases h₁ :
      (jsFalsy body.userId || jsFalsy body.description || body.amount == none) = true
    · simp [h₁, errorResponse]
    · rw [Bool.not_eq_true] at h₁
      simp only [h₁, Bool.false_eq_true, if_false]
      cases v with
      | num q =>
        have hq0 : q ≤ 0 := hq q rfl
        simp [hv, jsIsNumber, jsToNumber, hq0, errorResponse]
      | str a => simp [hv, jsIsNumber, errorResponse]
      | boolean b => simp [hv, jsIsNumber, errorResponse]
      | null => simp [hv, jsIsNumber, errorResponse]
      | arrObj => simp [hv, jsIsNumber, errorResponse]

/-- A stub transaction service that always fails, used to exhibit that the
rejection by the handler does not consult the service. -/
def svcStub : SysState → TransactionInput → SysState × Except String Transaction :=
  fun s _ => (s, Except.error "stub")

/-- A request body with amount 0 (present but not a positive number). -/
def bodyZeroAmount : RequestBody :=
  { userId := some (JsonVal.str "u1"), description := some (JsonVal.str "Coffee"),
    amount := some (JsonVal.num 0) }

/-- Witness for C9: amount 0 is rejected with 400, state unchanged, and the
real service and a stub service give the same response. -/
theorem postTransactions_rejectsInvalid_witness :
    (postTransactions (TransactionService.createTransaction envOk) sEmpty
      bodyZeroAmount).1 = sEmpty ∧
    (postTransactions (TransactionService.createTransaction envOk) sEmpty
      bodyZeroAmount).2.statusCode = 400 ∧
    (postTransactions (TransactionService.createTransaction envOk) sEmpty
      bodyZeroAmount).2.success = false ∧
    postTransactions (TransactionService.createTransaction envOk) sEmpty bodyZeroAmount =
      postTransactions svcStub sEmpty bodyZeroAmount :=
  postTransactions_rejectsInvalid (TransactionService.createTransaction envOk)
    svcStub sEmpty bodyZeroAmount
    (Or.inr (Or.inr (Or.inr ⟨JsonVal.num 0, rfl, by
      intro q hqe
      injection hqe with h₂
      rw [← h₂]⟩)))

/-- Environment where the queue enqueue fails but classification and
persistence succeed. -/
def envDispatchDown : Env :=
  { chat := chatFood, persistFails := false, dispatchFails := true }

/-- C1 counterexample: with classification and persistence succeeding and
the enqueue failing, createTransaction does not return the persisted
Transaction — it raises the dispatch error — even though the Transaction
was persisted (it sits in the store of the post-call state). -/
theorem createTransaction_dispatchFailure_counterexample :
    (TransactionService.createTransaction envDispatchDown sEmpty dataCoffee).2 =
      Except.error "queue unavailable" ∧
    (TransactionService.createTransaction envDispatchDown sEmpty dataCoffee).1.db.transactions =
      [txnCoffee] := by
  constructor <;> rfl

/-- C1 amended: when persistence succeeds and the enqueue fails,
createTransaction raises the dispatch error to its caller instead of
returning the persisted Transaction; the persisted Transaction is not
rolled back — the post-call store is exactly the post-persistence store,
which contains the new row — and the queue is unchanged. -/
theorem createTransaction_dispatchFailure (env : Env) (s : SysState)
    (data : TransactionInput)
    (hp : env.persistFails = false) (hq : env.dispatchFails = true) :
    (TransactionService.createTransaction env s data).2 =
      Except.error "queue unavailable" ∧
    (TransactionService.createTransaction env s data).1.db =
      (TransactionRepository.create s.db data.userId data.description data.amount
        (AIService.classifyTransaction data.description env.chat).category
        (AIService.classifyTransaction data.description env.chat).confidence).1 ∧
    (TransactionRepository.create s.db data.userId data.description data.amount
        (AIService.classifyTransaction data.description env.chat).category
        (AIService.classifyTransaction data.description env.chat).confidence).2 ∈
      (TransactionService.createTransaction env s data).1.db.transactions ∧
    (TransactionService.createTransaction env s data).1.queue = s.queue := by
  unfold TransactionService.createTransaction TransactionService.repositoryCreateE
    TransactionService.alertQueueAdd
  simp only [hp, hq, Bool.false_eq_true, if_false, if_true]
  rcases hcr : TransactionRepository.create s.db data.userId data.description
      data.amount (AIService.classifyTransaction data.description env.chat).category
      (AIService.classifyTransaction data.description env.chat).confidence
    with ⟨db1, txn1⟩
  have happ := create_transactions_append s.db data.userId data.description
    data.amount (AIService.classifyTransaction data.description env.chat).category
    (AIService.classifyTransaction data.description env.chat).confidence
  rw [hcr] at happ
  refine ⟨by trivial, by trivial, ?_, by trivial⟩
  simp only
  rw [happ]
  simp

/-- Witness for the amended C1 theorem at the concrete failing input. -/
theorem createTransaction_dispatchFailure_witness :
    (TransactionService.createTransaction envDispatchDown sEmpty dataCoffee).2 =
      Except.error "queue unavailable" ∧
    (TransactionService.createTransaction envDispatchDown sEmpty dataCoffee).1.db =
      (TransactionRepository.create sEmpty.db dataCoffee.userId dataCoffee.description
        dataCoffee.amount
        (AIService.classifyTransaction dataCoffee.description envDispatchDown.chat).category
        (AIService.classifyTransaction dataCoffee.description envDispatchDown.chat).confidence).1 ∧
    (TransactionRepository.create sEmpty.db dataCoffee.userId dataCoffee.description
        dataCoffee.amount
        (AIService.classifyTransaction dataCoffee.description envDispatchDown.chat).category
        (AIService.classifyTransaction dataCoffee.description envDispatchDown.chat).confidence).2 ∈
      (TransactionService.createTransaction envDispatchDown sEmpty dataCoffee).1.db.transactions ∧
    (TransactionService.createTransaction envDispatchDown sEmpty dataCoffee).1.queue =
      sEmpty.queue :=
  createTransaction_dispatchFailure envDispatchDown sEmpty dataCoffee rfl rfl
